import Mathlib

/-!
Verification of the alarm severity registry of `flight/Libraries/alarms.c`.

The C module keeps a process-wide table of alarm severities in an external
store (`SystemAlarmsGet` / `SystemAlarmsSet`), guarded by one recursive
mutex.  We embed each operation as a pure function from the current stored
table (plus the outcome of the lock acquisition, which the C call
`xSemaphoreTakeRecursive` reports) to a result code, the table after the
call, and the trace of external events the call performs (lock take/give,
table read, table write-back).
-/

/-- Modelled from the spec: the severity enumeration of the generated
`SystemAlarmsAlarmOptions` type (the generated uavobject header is not part
of the sources).  The spec fixes the total order
`Uninitialized < Ok < Warning < Error < Critical`, with `Uninitialised`
the numeric value `0` (the sentinel `AlarmsGet` returns on an invalid id). -/
inductive SystemAlarmsAlarmOptions where
  | uninitialised
  | ok
  | warning
  | error
  | critical
deriving DecidableEq, Repr

/-- Numeric code of a severity, giving the total order used by the C
comparison `alarms.Alarm[n] >= severity`. -/
def SystemAlarmsAlarmOptions.toNat : SystemAlarmsAlarmOptions → Nat
  | .uninitialised => 0
  | .ok => 1
  | .warning => 2
  | .error => 3
  | .critical => 4

/-- Modelled from the spec: the configured default severity
(`SYSTEMALARMS_ALARM_DEFAULT` in the generated header, not in the sources);
the spec says it is the uninitialized/default severity, distinct from `Ok`. -/
def SYSTEMALARMS_ALARM_DEFAULT : SystemAlarmsAlarmOptions :=
  SystemAlarmsAlarmOptions.uninitialised

/-- One observable external action of an operation: taking or giving the
shared recursive mutex, reading the whole record from the external store
(`SystemAlarmsGet`), or writing it back (`SystemAlarmsSet`). -/
inductive TraceEvent where
  | takeLock
  | giveLock
  | readTable
  | writeTable
deriving DecidableEq, Repr

/-- The system alarms record: per-id severity and, for extended alarms, the
two extended status fields (`uint8_t` in C; no arithmetic is ever performed
on them, they are only copied, so `Nat` carries their values faithfully). -/
structure SystemAlarmsData where
  Alarm : Nat → SystemAlarmsAlarmOptions
  ExtendedAlarmStatus : Nat → Nat
  ExtendedAlarmSubStatus : Nat → Nat

/-- Result of one registry operation: the `int32_t` return code, the table
held by the external store after the call, and the trace of external events
the call performed. -/
structure OpResult where
  ret : Int
  alarms : SystemAlarmsData
  events : List TraceEvent

/-- `AlarmsSet` from alarms.c.  `N` is `SYSTEMALARMS_ALARM_NUMELEM`;
`lockOk` is whether `xSemaphoreTakeRecursive` returns `pdTRUE`.  The C code
rejects `alarm >= N`, then takes the lock, reads the record, and only when
the stored severity differs from the requested one stores it and writes the
record back. -/
def AlarmsSet (N : Nat) (lockOk : Bool) (s : SystemAlarmsData) (alarm : Nat)
    (severity : SystemAlarmsAlarmOptions) : OpResult :=
  if N ≤ alarm then
    { ret := -1, alarms := s, events := [] }
  else if lockOk = false then
    { ret := -1, alarms := s, events := [TraceEvent.takeLock] }
  else if s.Alarm alarm ≠ severity then
    { ret := 0,
      alarms := { s with Alarm := Function.update s.Alarm alarm severity },
      events := [TraceEvent.takeLock, TraceEvent.readTable,
                 TraceEvent.writeTable, TraceEvent.giveLock] }
  else
    { ret := 0, alarms := s,
      events := [TraceEvent.takeLock, TraceEvent.readTable, TraceEvent.giveLock] }

/-- `ExtendedAlarmsSet` from alarms.c.  `M` is
`SYSTEMALARMS_EXTENDEDALARMSTATUS_NUMELEM`.  Only when the stored severity
differs from the requested one does the C code store `status`, `subStatus`
and `severity` and write the record back; otherwise nothing is updated. -/
def ExtendedAlarmsSet (M : Nat) (lockOk : Bool) (s : SystemAlarmsData) (alarm : Nat)
    (severity : SystemAlarmsAlarmOptions) (status subStatus : Nat) : OpResult :=
  if M ≤ alarm then
    { ret := -1, alarms := s, events := [] }
  else if lockOk = false then
    { ret := -1, alarms := s, events := [TraceEvent.takeLock] }
  else if s.Alarm alarm ≠ severity then
    { ret := 0,
      alarms := { s with
        Alarm := Function.update s.Alarm alarm severity,
        ExtendedAlarmStatus := Function.update s.ExtendedAlarmStatus alarm status,
        ExtendedAlarmSubStatus := Function.update s.ExtendedAlarmSubStatus alarm subStatus },
      events := [TraceEvent.takeLock, TraceEvent.readTable,
                 TraceEvent.writeTable, TraceEvent.giveLock] }
  else
    { ret := 0, alarms := s,
      events := [TraceEvent.takeLock, TraceEvent.readTable, TraceEvent.giveLock] }

/-- `AlarmsGet` from alarms.c.  Returns `0` (the `uninitialised` code) for
`alarm >= N` before touching the store; otherwise it reads the record — with
no lock operation anywhere in the function — and returns the stored
severity. -/
def AlarmsGet (N : Nat) (s : SystemAlarmsData) (alarm : Nat) :
    SystemAlarmsAlarmOptions × List TraceEvent :=
  if N ≤ alarm then
    (SystemAlarmsAlarmOptions.uninitialised, [])
  else
    (s.Alarm alarm, [TraceEvent.readTable])

/-- `AlarmsDefault` from alarms.c: `AlarmsSet(alarm, SYSTEMALARMS_ALARM_DEFAULT)`. -/
def AlarmsDefault (N : Nat) (lockOk : Bool) (s : SystemAlarmsData) (alarm : Nat) : OpResult :=
  AlarmsSet N lockOk s alarm SYSTEMALARMS_ALARM_DEFAULT

/-- `AlarmsDefaultAll` from alarms.c: `AlarmsDefault(n)` for `n = 0..N-1` in
order, each call acquiring the lock separately (`lockOk n` is the outcome of
the take in iteration `n`); per-call return codes are discarded. -/
def AlarmsDefaultAll (N : Nat) (lockOk : Nat → Bool) (s : SystemAlarmsData) :
    SystemAlarmsData :=
  (List.range N).foldl (fun st n => (AlarmsDefault N (lockOk n) st n).alarms) s

/-- `AlarmsClear` from alarms.c: extended ids (`alarm < M`) are cleared via
`ExtendedAlarmsSet(alarm, OK, 0, 0)`, the rest via `AlarmsSet(alarm, OK)`. -/
def AlarmsClear (N M : Nat) (lockOk : Bool) (s : SystemAlarmsData) (alarm : Nat) : OpResult :=
  if alarm < M then
    ExtendedAlarmsSet M lockOk s alarm SystemAlarmsAlarmOptions.ok 0 0
  else
    AlarmsSet N lockOk s alarm SystemAlarmsAlarmOptions.ok

/-- `AlarmsClearAll` from alarms.c: `AlarmsClear(n)` for `n = 0..N-1` in
order; per-call return codes are discarded. -/
def AlarmsClearAll (N M : Nat) (lockOk : Nat → Bool) (s : SystemAlarmsData) :
    SystemAlarmsData :=
  (List.range N).foldl (fun st n => (AlarmsClear N M (lockOk n) st n).alarms) s

/-- `hasSeverity` from alarms.c.  The C code calls
`xSemaphoreTakeRecursive` but discards its result (`lockOk` is ignored),
reads the record, scans ids `0..N-1` and returns `1` on the first entry with
severity `>=` the threshold, else `0`; the lock is given back on every path. -/
def hasSeverity (N : Nat) (lockOk : Bool) (s : SystemAlarmsData)
    (severity : SystemAlarmsAlarmOptions) : OpResult :=
  if (List.range N).any (fun n => decide (severity.toNat ≤ (s.Alarm n).toNat)) then
    { ret := 1, alarms := s,
      events := [TraceEvent.takeLock, TraceEvent.readTable, TraceEvent.giveLock] }
  else
    { ret := 0, alarms := s,
      events := [TraceEvent.takeLock, TraceEvent.readTable, TraceEvent.giveLock] }

/-- `AlarmsHasWarnings` from alarms.c: `hasSeverity(WARNING)`. -/
def AlarmsHasWarnings (N : Nat) (lockOk : Bool) (s : SystemAlarmsData) : OpResult :=
  hasSeverity N lockOk s SystemAlarmsAlarmOptions.warning

/-- `AlarmsHasErrors` from alarms.c: `hasSeverity(ERROR)`. -/
def AlarmsHasErrors (N : Nat) (lockOk : Bool) (s : SystemAlarmsData) : OpResult :=
  hasSeverity N lockOk s SystemAlarmsAlarmOptions.error

/-- `AlarmsHasCritical` from alarms.c: `hasSeverity(CRITICAL)`. -/
def AlarmsHasCritical (N : Nat) (lockOk : Bool) (s : SystemAlarmsData) : OpResult :=
  hasSeverity N lockOk s SystemAlarmsAlarmOptions.critical

/-- Number of write-backs to the external store in a trace. -/
def writeCount (l : List TraceEvent) : Nat :=
  l.count TraceEvent.writeTable

/-- A concrete table: entry 0 holds `(Error, 1, 2)`, all others the same. -/
def tblErr12 : SystemAlarmsData :=
  { Alarm := fun _ => SystemAlarmsAlarmOptions.error,
    ExtendedAlarmStatus := fun _ => 1,
    ExtendedAlarmSubStatus := fun _ => 2 }

/-- A concrete all-`Ok` table with zeroed extended fields. -/
def tblAllOk : SystemAlarmsData :=
  { Alarm := fun _ => SystemAlarmsAlarmOptions.ok,
    ExtendedAlarmStatus := fun _ => 0,
    ExtendedAlarmSubStatus := fun _ => 0 }

example : (ExtendedAlarmsSet 1 true tblErr12 0 SystemAlarmsAlarmOptions.error 9 9).ret = 0 := by
  decide

example : (ExtendedAlarmsSet 1 true tblErr12 0 SystemAlarmsAlarmOptions.error 9 9).alarms.ExtendedAlarmStatus 0 = 1 := by
  rfl

example : (hasSeverity 3 true tblAllOk SystemAlarmsAlarmOptions.warning).ret = 0 := by
  decide

/-- Auxiliary: a quantity `g` preserved by every step of a fold is preserved
by the whole fold. -/
theorem foldl_preserves {α β : Type} (g : α → β) (f : α → Nat → α)
    (h : ∀ st n, g (f st n) = g st) :
    ∀ (l : List Nat) (s : α), g (l.foldl f s) = g s := by
  intro l
  induction l with
  | nil => intro s; rfl
  | cons x xs ih => intro s; rw [List.foldl_cons, ih, h]

/-- Claim C1: for an extended alarm id whose stored severity already equals
the requested one, `ExtendedAlarmsSet` performs no update at all — the table
(including `extendedStatus`/`extendedSubStatus`) is unchanged, no write-back
occurs — and the call still returns success. -/
theorem extendedAlarmsSet_same_severity_no_update
    (M : Nat) (s : SystemAlarmsData) (alarm : Nat)
    (severity : SystemAlarmsAlarmOptions) (status subStatus : Nat)
    (hid : alarm < M) (hsev : s.Alarm alarm = severity) :
    (ExtendedAlarmsSet M true s alarm severity status subStatus).ret = 0 ∧
    (ExtendedAlarmsSet M true s alarm severity status subStatus).alarms = s ∧
    TraceEvent.writeTable ∉ (ExtendedAlarmsSet M true s alarm severity status subStatus).events := by
  simp [ExtendedAlarmsSet, Nat.not_le.mpr hid, hsev]

/-- Witness for C1: the spec scenario — after the table holds `(Error, 1, 2)`
at id 0, `ExtendedAlarmsSet(0, Error, 9, 9)` succeeds and leaves the stored
table (hence status/subStatus `(1, 2)`) unchanged, with no write-back. -/
theorem extendedAlarmsSet_same_severity_no_update_witness :
    (ExtendedAlarmsSet 1 true tblErr12 0 SystemAlarmsAlarmOptions.error 9 9).ret = 0 ∧
    (ExtendedAlarmsSet 1 true tblErr12 0 SystemAlarmsAlarmOptions.error 9 9).alarms = tblErr12 ∧
    TraceEvent.writeTable ∉
      (ExtendedAlarmsSet 1 true tblErr12 0 SystemAlarmsAlarmOptions.error 9 9).events :=
  extendedAlarmsSet_same_severity_no_update 1 tblErr12 0
    SystemAlarmsAlarmOptions.error 9 9 (by decide) rfl

/-- Counterexample for C2 as stated: two consecutive `AlarmsSet(id, S)`
calls with the same `S` need not produce exactly one write-back — on a table
whose entry already holds `S` they produce zero write-backs (both calls
still return success). -/
theorem alarmsSet_repeat_one_write_counterexample :
    (AlarmsSet 1 true tblAllOk 0 SystemAlarmsAlarmOptions.ok).ret = 0 ∧
    (AlarmsSet 1 true (AlarmsSet 1 true tblAllOk 0 SystemAlarmsAlarmOptions.ok).alarms 0
      SystemAlarmsAlarmOptions.ok).ret = 0 ∧
    writeCount (AlarmsSet 1 true tblAllOk 0 SystemAlarmsAlarmOptions.ok).events +
      writeCount (AlarmsSet 1 true (AlarmsSet 1 true tblAllOk 0 SystemAlarmsAlarmOptions.ok).alarms 0
        SystemAlarmsAlarmOptions.ok).events = 0 ∧
    ¬ (writeCount (AlarmsSet 1 true tblAllOk 0 SystemAlarmsAlarmOptions.ok).events +
        writeCount (AlarmsSet 1 true (AlarmsSet 1 true tblAllOk 0 SystemAlarmsAlarmOptions.ok).alarms 0
          SystemAlarmsAlarmOptions.ok).events = 1) := by
  decide

/-- Claim C2 (amended): for a valid id, `AlarmsSet(id, S)` returns success;
if the stored severity already equals `S` there is no write-back and the
table is unchanged, otherwise `S` is stored and exactly one write-back
occurs.  Two consecutive calls with the same `S` both succeed, the second
never writes, so together they write exactly once when the stored severity
initially differs from `S` and zero times when it already equals `S`. -/
theorem alarmsSet_severity_gated_writes
    (N : Nat) (s : SystemAlarmsData) (alarm : Nat)
    (severity : SystemAlarmsAlarmOptions) (hid : alarm < N) :
    (AlarmsSet N true s alarm severity).ret = 0 ∧
    (AlarmsSet N true (AlarmsSet N true s alarm severity).alarms alarm severity).ret = 0 ∧
    (s.Alarm alarm = severity →
      (AlarmsSet N true s alarm severity).alarms = s ∧
      writeCount (AlarmsSet N true s alarm severity).events = 0) ∧
    (s.Alarm alarm ≠ severity →
      (AlarmsSet N true s alarm severity).alarms.Alarm alarm = severity ∧
      writeCount (AlarmsSet N true s alarm severity).events = 1) ∧
    writeCount (AlarmsSet N true (AlarmsSet N true s alarm severity).alarms alarm severity).events = 0 := by
  by_cases heq : s.Alarm alarm = severity
  · simp [AlarmsSet, Nat.not_le.mpr hid, heq, writeCount]
  · simp [AlarmsSet, Nat.not_le.mpr hid, heq, Function.update_same, writeCount]

/-- Witness for C2 (amended): with entry 0 at `Error`, setting it to
`Warning` twice succeeds both times, stores `Warning`, and writes back
exactly once (on the first call only). -/
theorem alarmsSet_severity_gated_writes_witness :
    (AlarmsSet 2 true tblErr12 0 SystemAlarmsAlarmOptions.warning).ret = 0 ∧
    (AlarmsSet 2 true (AlarmsSet 2 true tblErr12 0 SystemAlarmsAlarmOptions.warning).alarms 0
      SystemAlarmsAlarmOptions.warning).ret = 0 ∧
    (AlarmsSet 2 true tblErr12 0 SystemAlarmsAlarmOptions.warning).alarms.Alarm 0 =
      SystemAlarmsAlarmOptions.warning ∧
    writeCount (AlarmsSet 2 true tblErr12 0 SystemAlarmsAlarmOptions.warning).events = 1 ∧
    writeCount (AlarmsSet 2 true (AlarmsSet 2 true tblErr12 0 SystemAlarmsAlarmOptions.warning).alarms 0
      SystemAlarmsAlarmOptions.warning).events = 0 := by
  have h := alarmsSet_severity_gated_writes 2 tblErr12 0
    SystemAlarmsAlarmOptions.warning (by decide)
  exact ⟨h.1, h.2.1, (h.2.2.2.1 (by decide)).1, (h.2.2.2.1 (by decide)).2, h.2.2.2.2⟩

/-- Claim C6: for a valid id, `AlarmsGet(id)` immediately after a successful
`AlarmsSet(id, S)` returns `S`. -/
theorem alarmsGet_after_alarmsSet
    (N : Nat) (s : SystemAlarmsData) (alarm : Nat)
    (severity : SystemAlarmsAlarmOptions) (hid : alarm < N) :
    (AlarmsSet N true s alarm severity).ret = 0 ∧
    (AlarmsGet N (AlarmsSet N true s alarm severity).alarms alarm).1 = severity := by
  by_cases heq : s.Alarm alarm = severity
  · simp [AlarmsSet, AlarmsGet, Nat.not_le.mpr hid, heq]
  · simp [AlarmsSet, AlarmsGet, Nat.not_le.mpr hid, heq, Function.update_same]

/-- Witness for C6: setting alarm 1 of a table of 3 to `Critical` succeeds
and a subsequent `AlarmsGet 1` returns `Critical`. -/
theorem alarmsGet_after_alarmsSet_witness :
    (AlarmsSet 3 true tblAllOk 1 SystemAlarmsAlarmOptions.critical).ret = 0 ∧
    (AlarmsGet 3 (AlarmsSet 3 true tblAllOk 1 SystemAlarmsAlarmOptions.critical).alarms 1).1 =
      SystemAlarmsAlarmOptions.critical :=
  alarmsGet_after_alarmsSet 3 tblAllOk 1 SystemAlarmsAlarmOptions.critical (by decide)

/-- Claim C9: for any id out of range, `AlarmsGet` returns the defined
`uninitialised` sentinel (the C code returns `0`) with an empty event trace:
the stored table is neither read nor written. -/
theorem alarmsGet_invalid_id_sentinel
    (N : Nat) (s : SystemAlarmsData) (alarm : Nat) (hid : N ≤ alarm) :
    AlarmsGet N s alarm = (SystemAlarmsAlarmOptions.uninitialised, []) := by
  simp [AlarmsGet, hid]

/-- Witness for C9: `AlarmsGet` at the boundary id `N` (here 2) returns the
`uninitialised` sentinel and performs no external event. -/
theorem alarmsGet_invalid_id_sentinel_witness :
    AlarmsGet 2 tblErr12 2 = (SystemAlarmsAlarmOptions.uninitialised, []) :=
  alarmsGet_invalid_id_sentinel 2 tblErr12 2 (by decide)

/-- Auxiliary: a successful locked `AlarmsSet` leaves the requested severity
stored at the requested id (either it wrote it, or it was already there). -/
theorem alarmsSet_stores (N : Nat) (s : SystemAlarmsData) (alarm : Nat)
    (severity : SystemAlarmsAlarmOptions) (hid : alarm < N) :
    (AlarmsSet N true s alarm severity).alarms.Alarm alarm = severity := by
  by_cases heq : s.Alarm alarm = severity
  · simp [AlarmsSet, Nat.not_le.mpr hid, heq]
  · simp [AlarmsSet, Nat.not_le.mpr hid, heq, Function.update_same]

/-- Auxiliary: the return code of `hasSeverity` is `1` or `0` according to
whether some valid id meets the threshold. -/
theorem hasSeverity_ret_eq (N : Nat) (lockOk : Bool) (s : SystemAlarmsData)
    (t : SystemAlarmsAlarmOptions) :
    (hasSeverity N lockOk s t).ret =
      if ∃ id, id < N ∧ t.toNat ≤ (s.Alarm id).toNat then 1 else 0 := by
  by_cases hc : ∃ id, id < N ∧ t.toNat ≤ (s.Alarm id).toNat
  · rw [if_pos hc]
    have hb : ((List.range N).any fun n => decide (t.toNat ≤ (s.Alarm n).toNat)) = true := by
      rw [List.any_eq_true]
      obtain ⟨id, hid, hle⟩ := hc
      exact ⟨id, List.mem_range.mpr hid, decide_eq_true hle⟩
    simp [hasSeverity, hb]
  · rw [if_neg hc]
    have hb : ((List.range N).any fun n => decide (t.toNat ≤ (s.Alarm n).toNat)) = false := by
      rw [Bool.eq_false_iff]
      intro habs
      rw [List.any_eq_true] at habs
      obtain ⟨id, hid, hle⟩ := habs
      exact hc ⟨id, List.mem_range.mp hid, of_decide_eq_true hle⟩
    simp [hasSeverity, hb]

/-- Claim C3: `AlarmsClear` routes by id range — for an extended id it is
the very call `ExtendedAlarmsSet(id, Ok, 0, 0)`, otherwise the very call
`AlarmsSet(id, Ok)` (same result, same state, same events); consequently
clearing an extended id whose severity is not `Ok` stores `Ok` and zeroes
its status/subStatus, while clearing an extended id already at `Ok` leaves
the whole table (status/subStatus included) untouched. -/
theorem alarmsClear_routes (N M : Nat) (lockOk : Bool) (s : SystemAlarmsData) (alarm : Nat) :
    AlarmsClear N M lockOk s alarm =
      (if alarm < M then ExtendedAlarmsSet M lockOk s alarm SystemAlarmsAlarmOptions.ok 0 0
       else AlarmsSet N lockOk s alarm SystemAlarmsAlarmOptions.ok) ∧
    (alarm < M → s.Alarm alarm ≠ SystemAlarmsAlarmOptions.ok →
      (AlarmsClear N M true s alarm).ret = 0 ∧
      (AlarmsClear N M true s alarm).alarms.Alarm alarm = SystemAlarmsAlarmOptions.ok ∧
      (AlarmsClear N M true s alarm).alarms.ExtendedAlarmStatus alarm = 0 ∧
      (AlarmsClear N M true s alarm).alarms.ExtendedAlarmSubStatus alarm = 0) ∧
    (alarm < M → s.Alarm alarm = SystemAlarmsAlarmOptions.ok →
      (AlarmsClear N M true s alarm).ret = 0 ∧
      (AlarmsClear N M true s alarm).alarms = s) := by
  refine ⟨rfl, ?_, ?_⟩
  · intro hm hne
    simp [AlarmsClear, hm, ExtendedAlarmsSet, Nat.not_le.mpr hm, hne, Function.update_same]
  · intro hm heq
    simp [AlarmsClear, hm, ExtendedAlarmsSet, Nat.not_le.mpr hm, heq]

/-- Witness for C3: with entry 0 at `(Error, 1, 2)` (extended, severity not
`Ok`), `Clear 0` stores `(Ok, 0, 0)`; on an all-`Ok` table, `Clear 0` leaves
the table exactly as it was. -/
theorem alarmsClear_routes_witness :
    (AlarmsClear 2 1 true tblErr12 0).alarms.Alarm 0 = SystemAlarmsAlarmOptions.ok ∧
    (AlarmsClear 2 1 true tblErr12 0).alarms.ExtendedAlarmStatus 0 = 0 ∧
    (AlarmsClear 2 1 true tblErr12 0).alarms.ExtendedAlarmSubStatus 0 = 0 ∧
    (AlarmsClear 2 1 true tblAllOk 0).alarms = tblAllOk := by
  have h1 := (alarmsClear_routes 2 1 true tblErr12 0).2.1 (by decide) (by decide)
  have h2 := (alarmsClear_routes 2 1 true tblAllOk 0).2.2 (by decide) rfl
  exact ⟨h1.2.1, h1.2.2.1, h1.2.2.2, h2.2⟩

/-- Claim C4: `hasSeverity t` returns `1` exactly when some valid id has
stored severity `≥ t` and `0` otherwise; the three convenience queries are
`hasSeverity` at the fixed thresholds; on an all-`Ok` table the `Warning`
query returns `0`, and it returns `1` right after `AlarmsSet(id, S)` with
any `S ≥ Warning` on a valid id. -/
theorem hasSeverity_any_threshold
    (N : Nat) (lockOk : Bool) (s : SystemAlarmsData) (t : SystemAlarmsAlarmOptions) :
    ((hasSeverity N lockOk s t).ret = 1 ↔ ∃ id, id < N ∧ t.toNat ≤ (s.Alarm id).toNat) ∧
    ((hasSeverity N lockOk s t).ret = 0 ↔ ¬ ∃ id, id < N ∧ t.toNat ≤ (s.Alarm id).toNat) ∧
    AlarmsHasWarnings N lockOk s = hasSeverity N lockOk s SystemAlarmsAlarmOptions.warning ∧
    AlarmsHasErrors N lockOk s = hasSeverity N lockOk s SystemAlarmsAlarmOptions.error ∧
    AlarmsHasCritical N lockOk s = hasSeverity N lockOk s SystemAlarmsAlarmOptions.critical ∧
    ((∀ id, id < N → s.Alarm id = SystemAlarmsAlarmOptions.ok) →
      (hasSeverity N lockOk s SystemAlarmsAlarmOptions.warning).ret = 0) ∧
    (∀ alarm severity, alarm < N →
      SystemAlarmsAlarmOptions.warning.toNat ≤ SystemAlarmsAlarmOptions.toNat severity →
      (hasSeverity N lockOk (AlarmsSet N true s alarm severity).alarms
        SystemAlarmsAlarmOptions.warning).ret = 1) := by
  refine ⟨?_, ?_, rfl, rfl, rfl, ?_, ?_⟩
  · rw [hasSeverity_ret_eq]
    by_cases hc : ∃ id, id < N ∧ t.toNat ≤ (s.Alarm id).toNat
    · simp [hc]
    · simp [hc]
  · rw [hasSeverity_ret_eq]
    by_cases hc : ∃ id, id < N ∧ t.toNat ≤ (s.Alarm id).toNat
    · simp [hc]
    · simp [hc]
  · intro hok
    rw [hasSeverity_ret_eq, if_neg]
    rintro ⟨id, hid, hle⟩
    rw [hok id hid] at hle
    exact absurd hle (by decide)
  · intro alarm severity halarm hws
    rw [hasSeverity_ret_eq, if_pos]
    exact ⟨alarm, halarm, by rw [alarmsSet_stores N s alarm severity halarm]; exact hws⟩

/-- Witness for C4: on a 2-entry all-`Ok` table the `Warning` query returns
`0`; after `AlarmsSet(0, Warning)` it returns `1`. -/
theorem hasSeverity_any_threshold_witness :
    (hasSeverity 2 true tblAllOk SystemAlarmsAlarmOptions.warning).ret = 0 ∧
    (hasSeverity 2 true (AlarmsSet 2 true tblAllOk 0 SystemAlarmsAlarmOptions.warning).alarms
      SystemAlarmsAlarmOptions.warning).ret = 1 := by
  have h := hasSeverity_any_threshold 2 true tblAllOk SystemAlarmsAlarmOptions.warning
  exact ⟨h.2.2.2.2.2.1 (fun id _ => rfl),
    h.2.2.2.2.2.2 0 SystemAlarmsAlarmOptions.warning (by decide) (by decide)⟩

/-- Claim C5: `AlarmsSet` fails on every id `≥ N`, `ExtendedAlarmsSet` on
every id `≥ M`, both fail when the lock acquisition fails, and every failure
(return `-1`) short-circuits before any write-back: the table is unchanged
and the trace contains no write. -/
theorem set_failure_short_circuit
    (N M : Nat) (lockOk : Bool) (s : SystemAlarmsData) (alarm : Nat)
    (severity : SystemAlarmsAlarmOptions) (status subStatus : Nat) :
    (N ≤ alarm → (AlarmsSet N lockOk s alarm severity).ret = -1) ∧
    (M ≤ alarm → (ExtendedAlarmsSet M lockOk s alarm severity status subStatus).ret = -1) ∧
    (lockOk = false → (AlarmsSet N lockOk s alarm severity).ret = -1 ∧
      (ExtendedAlarmsSet M lockOk s alarm severity status subStatus).ret = -1) ∧
    ((AlarmsSet N lockOk s alarm severity).ret = -1 →
      (AlarmsSet N lockOk s alarm severity).alarms = s ∧
      TraceEvent.writeTable ∉ (AlarmsSet N lockOk s alarm severity).events) ∧
    ((ExtendedAlarmsSet M lockOk s alarm severity status subStatus).ret = -1 →
      (ExtendedAlarmsSet M lockOk s alarm severity status subStatus).alarms = s ∧
      TraceEvent.writeTable ∉
        (ExtendedAlarmsSet M lockOk s alarm severity status subStatus).events) := by
  refine ⟨?_, ?_, ?_, ?_, ?_⟩
  · intro h; simp [AlarmsSet, h]
  · intro h; simp [ExtendedAlarmsSet, h]
  · intro h
    subst h
    constructor
    · by_cases hN : N ≤ alarm
      · simp [AlarmsSet, hN]
      · simp [AlarmsSet, hN]
    · by_cases hM : M ≤ alarm
      · simp [ExtendedAlarmsSet, hM]
      · simp [ExtendedAlarmsSet, hM]
  · intro hret
    by_cases h1 : N ≤ alarm
    · simp [AlarmsSet, h1]
    · by_cases h2 : lockOk = false
      · simp [AlarmsSet, h1, h2]
      · exfalso
        by_cases h3 : s.Alarm alarm = severity
        · simp [AlarmsSet, h1, h2, h3] at hret
        · simp [AlarmsSet, h1, h2, h3] at hret
  · intro hret
    by_cases h1 : M ≤ alarm
    · simp [ExtendedAlarmsSet, h1]
    · by_cases h2 : lockOk = false
      · simp [ExtendedAlarmsSet, h1, h2]
      · exfalso
        by_cases h3 : s.Alarm alarm = severity
        · simp [ExtendedAlarmsSet, h1, h2, h3] at hret
        · simp [ExtendedAlarmsSet, h1, h2, h3] at hret

/-- Witness for C5: with `N = M = 1`, both setters fail at the boundary id
`1`; with the lock unavailable, `AlarmsSet` on the valid id `0` fails and
leaves the table unchanged. -/
theorem set_failure_short_circuit_witness :
    (AlarmsSet 1 true tblAllOk 1 SystemAlarmsAlarmOptions.warning).ret = -1 ∧
    (ExtendedAlarmsSet 1 true tblAllOk 1 SystemAlarmsAlarmOptions.warning 0 0).ret = -1 ∧
    (AlarmsSet 1 false tblAllOk 0 SystemAlarmsAlarmOptions.warning).ret = -1 ∧
    (AlarmsSet 1 false tblAllOk 0 SystemAlarmsAlarmOptions.warning).alarms = tblAllOk := by
  have h1 := set_failure_short_circuit 1 1 true tblAllOk 1 SystemAlarmsAlarmOptions.warning 0 0
  have h2 := set_failure_short_circuit 1 1 false tblAllOk 0 SystemAlarmsAlarmOptions.warning 0 0
  exact ⟨h1.1 (by decide), h1.2.1 (by decide), (h2.2.2.1 rfl).1,
    (h2.2.2.2.1 ((h2.2.2.1 rfl).1)).1⟩

/-- Auxiliary: `AlarmsSet` never touches the extended fields. -/
theorem alarmsSet_ext_fields (N : Nat) (lockOk : Bool) (s : SystemAlarmsData)
    (alarm : Nat) (severity : SystemAlarmsAlarmOptions) :
    (AlarmsSet N lockOk s alarm severity).alarms.ExtendedAlarmStatus = s.ExtendedAlarmStatus ∧
    (AlarmsSet N lockOk s alarm severity).alarms.ExtendedAlarmSubStatus = s.ExtendedAlarmSubStatus := by
  unfold AlarmsSet
  split_ifs <;> exact ⟨rfl, rfl⟩

/-- Auxiliary: `AlarmsSet` leaves every other entry's severity alone. -/
theorem alarmsSet_frame (N : Nat) (lockOk : Bool) (s : SystemAlarmsData)
    (alarm : Nat) (severity : SystemAlarmsAlarmOptions) (j : Nat) (hj : j ≠ alarm) :
    (AlarmsSet N lockOk s alarm severity).alarms.Alarm j = s.Alarm j := by
  unfold AlarmsSet
  split_ifs <;> simp [Function.update_noteq hj]

/-- Auxiliary: `ExtendedAlarmsSet` leaves every other entry alone. -/
theorem extendedAlarmsSet_frame (M : Nat) (lockOk : Bool) (s : SystemAlarmsData)
    (alarm : Nat) (severity : SystemAlarmsAlarmOptions) (status subStatus : Nat)
    (j : Nat) (hj : j ≠ alarm) :
    (ExtendedAlarmsSet M lockOk s alarm severity status subStatus).alarms.Alarm j = s.Alarm j ∧
    (ExtendedAlarmsSet M lockOk s alarm severity status subStatus).alarms.ExtendedAlarmStatus j =
      s.ExtendedAlarmStatus j ∧
    (ExtendedAlarmsSet M lockOk s alarm severity status subStatus).alarms.ExtendedAlarmSubStatus j =
      s.ExtendedAlarmSubStatus j := by
  unfold ExtendedAlarmsSet
  split_ifs <;> simp [Function.update_noteq hj]

/-- Auxiliary: `ExtendedAlarmsSet` never writes the extended fields of ids
outside the extended range. -/
theorem extendedAlarmsSet_ext_high (M : Nat) (lockOk : Bool) (s : SystemAlarmsData)
    (alarm : Nat) (severity : SystemAlarmsAlarmOptions) (status subStatus : Nat)
    (j : Nat) (hj : M ≤ j) :
    (ExtendedAlarmsSet M lockOk s alarm severity status subStatus).alarms.ExtendedAlarmStatus j =
      s.ExtendedAlarmStatus j ∧
    (ExtendedAlarmsSet M lockOk s alarm severity status subStatus).alarms.ExtendedAlarmSubStatus j =
      s.ExtendedAlarmSubStatus j := by
  unfold ExtendedAlarmsSet
  split_ifs with h1 h2 h3
  · exact ⟨rfl, rfl⟩
  · exact ⟨rfl, rfl⟩
  · have hja : j ≠ alarm := fun heq => h1 (heq ▸ hj)
    simp [Function.update_noteq hja]
  · exact ⟨rfl, rfl⟩

/-- Auxiliary: `AlarmsClear` never writes the extended fields of ids outside
the extended range. -/
theorem alarmsClear_ext_high (N M : Nat) (lockOk : Bool) (s : SystemAlarmsData)
    (alarm : Nat) (j : Nat) (hj : M ≤ j) :
    (AlarmsClear N M lockOk s alarm).alarms.ExtendedAlarmStatus j = s.ExtendedAlarmStatus j ∧
    (AlarmsClear N M lockOk s alarm).alarms.ExtendedAlarmSubStatus j = s.ExtendedAlarmSubStatus j := by
  unfold AlarmsClear
  split_ifs with h
  · exact extendedAlarmsSet_ext_high M lockOk s alarm SystemAlarmsAlarmOptions.ok 0 0 j hj
  · have h2 := alarmsSet_ext_fields N lockOk s alarm SystemAlarmsAlarmOptions.ok
    exact ⟨congrFun h2.1 j, congrFun h2.2 j⟩

/-- Auxiliary: `AlarmsClearAll` never writes the extended fields of ids
outside the extended range. -/
theorem alarmsClearAll_ext_high (N M : Nat) (lockOks : Nat → Bool) (s : SystemAlarmsData)
    (j : Nat) (hj : M ≤ j) :
    (AlarmsClearAll N M lockOks s).ExtendedAlarmStatus j = s.ExtendedAlarmStatus j ∧
    (AlarmsClearAll N M lockOks s).ExtendedAlarmSubStatus j = s.ExtendedAlarmSubStatus j := by
  constructor
  · exact foldl_preserves (fun st => st.ExtendedAlarmStatus j) _
      (fun st n => (alarmsClear_ext_high N M (lockOks n) st n j hj).1) (List.range N) s
  · exact foldl_preserves (fun st => st.ExtendedAlarmSubStatus j) _
      (fun st n => (alarmsClear_ext_high N M (lockOks n) st n j hj).2) (List.range N) s

/-- Auxiliary: `AlarmsDefaultAll` never writes any extended field. -/
theorem alarmsDefaultAll_ext_fields (N : Nat) (lockOks : Nat → Bool) (s : SystemAlarmsData)
    (j : Nat) :
    (AlarmsDefaultAll N lockOks s).ExtendedAlarmStatus j = s.ExtendedAlarmStatus j ∧
    (AlarmsDefaultAll N lockOks s).ExtendedAlarmSubStatus j = s.ExtendedAlarmSubStatus j := by
  constructor
  · exact foldl_preserves (fun st => st.ExtendedAlarmStatus j) _
      (fun st n => congrFun (alarmsSet_ext_fields N (lockOks n) st n SYSTEMALARMS_ALARM_DEFAULT).1 j)
      (List.range N) s
  · exact foldl_preserves (fun st => st.ExtendedAlarmSubStatus j) _
      (fun st n => congrFun (alarmsSet_ext_fields N (lockOks n) st n SYSTEMALARMS_ALARM_DEFAULT).2 j)
      (List.range N) s

/-- Claim C7: every mutation edits at most one entry — `AlarmsSet` changes
at most the severity of its id (extended fields of all ids untouched),
`ExtendedAlarmsSet` changes at most the three fields of its id, and the
extended fields of ids outside the extended range (`j ≥ M`) are never
written by `ExtendedAlarmsSet`, `AlarmsClear`, `AlarmsClearAll` or
`AlarmsDefaultAll`. -/
theorem mutation_single_entry_frame
    (N M : Nat) (lockOk : Bool) (lockOks : Nat → Bool) (s : SystemAlarmsData)
    (alarm : Nat) (severity : SystemAlarmsAlarmOptions) (status subStatus : Nat) :
    (∀ j, j ≠ alarm → (AlarmsSet N lockOk s alarm severity).alarms.Alarm j = s.Alarm j) ∧
    (AlarmsSet N lockOk s alarm severity).alarms.ExtendedAlarmStatus = s.ExtendedAlarmStatus ∧
    (AlarmsSet N lockOk s alarm severity).alarms.ExtendedAlarmSubStatus = s.ExtendedAlarmSubStatus ∧
    (∀ j, j ≠ alarm →
      (ExtendedAlarmsSet M lockOk s alarm severity status subStatus).alarms.Alarm j = s.Alarm j ∧
      (ExtendedAlarmsSet M lockOk s alarm severity status subStatus).alarms.ExtendedAlarmStatus j =
        s.ExtendedAlarmStatus j ∧
      (ExtendedAlarmsSet M lockOk s alarm severity status subStatus).alarms.ExtendedAlarmSubStatus j =
        s.ExtendedAlarmSubStatus j) ∧
    (∀ j, M ≤ j →
      (ExtendedAlarmsSet M lockOk s alarm severity status subStatus).alarms.ExtendedAlarmStatus j =
        s.ExtendedAlarmStatus j ∧
      (ExtendedAlarmsSet M lockOk s alarm severity status subStatus).alarms.ExtendedAlarmSubStatus j =
        s.ExtendedAlarmSubStatus j) ∧
    (∀ j, M ≤ j →
      (AlarmsClear N M lockOk s alarm).alarms.ExtendedAlarmStatus j = s.ExtendedAlarmStatus j ∧
      (AlarmsClear N M lockOk s alarm).alarms.ExtendedAlarmSubStatus j = s.ExtendedAlarmSubStatus j) ∧
    (∀ j, M ≤ j →
      (AlarmsClearAll N M lockOks s).ExtendedAlarmStatus j = s.ExtendedAlarmStatus j ∧
      (AlarmsClearAll N M lockOks s).ExtendedAlarmSubStatus j = s.ExtendedAlarmSubStatus j ∧
      (AlarmsDefaultAll N lockOks s).ExtendedAlarmStatus j = s.ExtendedAlarmStatus j ∧
      (AlarmsDefaultAll N lockOks s).ExtendedAlarmSubStatus j = s.ExtendedAlarmSubStatus j) := by
  refine ⟨?_, (alarmsSet_ext_fields N lockOk s alarm severity).1,
    (alarmsSet_ext_fields N lockOk s alarm severity).2, ?_, ?_, ?_, ?_⟩
  · intro j hj; exact alarmsSet_frame N lockOk s alarm severity j hj
  · intro j hj; exact extendedAlarmsSet_frame M lockOk s alarm severity status subStatus j hj
  · intro j hj; exact extendedAlarmsSet_ext_high M lockOk s alarm severity status subStatus j hj
  · intro j hj; exact alarmsClear_ext_high N M lockOk s alarm j hj
  · intro j hj
    exact ⟨(alarmsClearAll_ext_high N M lockOks s j hj).1,
      (alarmsClearAll_ext_high N M lockOks s j hj).2,
      (alarmsDefaultAll_ext_fields N lockOks s j).1,
      (alarmsDefaultAll_ext_fields N lockOks s j).2⟩

/-- Witness for C7: with 3 alarms of which 1 is extended, mutating entry 0
leaves entry 2's severity and extended fields exactly as stored, and the
whole-table clear/default sweeps leave entry 2's extended fields exactly as
stored. -/
theorem mutation_single_entry_frame_witness :
    (AlarmsSet 3 true tblErr12 0 SystemAlarmsAlarmOptions.warning).alarms.Alarm 2 =
      SystemAlarmsAlarmOptions.error ∧
    (ExtendedAlarmsSet 1 true tblErr12 0 SystemAlarmsAlarmOptions.warning 5 6).alarms.ExtendedAlarmStatus 2 = 1 ∧
    (AlarmsClearAll 3 1 (fun _ => true) tblErr12).ExtendedAlarmStatus 2 = 1 ∧
    (AlarmsDefaultAll 3 (fun _ => true) tblErr12).ExtendedAlarmSubStatus 2 = 2 := by
  have h := mutation_single_entry_frame 3 1 true (fun _ => true) tblErr12 0
    SystemAlarmsAlarmOptions.warning 5 6
  exact ⟨(h.1 2 (by decide)).trans rfl,
    ((h.2.2.2.2.1 2 (by decide)).1).trans rfl,
    ((h.2.2.2.2.2.2 2 (by decide)).1).trans rfl,
    ((h.2.2.2.2.2.2 2 (by decide)).2.2.2).trans rfl⟩

/-- Counterexample for C8 as stated: `AlarmsGet` on a valid id performs its
table read with no lock operation at all — the concrete trace contains the
read but neither a lock take nor a lock give. -/
theorem alarmsGet_lock_counterexample :
    TraceEvent.readTable ∈ (AlarmsGet 1 tblAllOk 0).2 ∧
    TraceEvent.takeLock ∉ (AlarmsGet 1 tblAllOk 0).2 ∧
    TraceEvent.giveLock ∉ (AlarmsGet 1 tblAllOk 0).2 := by
  decide

/-- Claim C8 (amended): `AlarmsGet` on a valid id reads the table without
acquiring the mutual-exclusion lock used by the setters: its event trace is
exactly one table read, with no lock take or give. -/
theorem alarmsGet_reads_without_lock (N : Nat) (s : SystemAlarmsData) (alarm : Nat)
    (hid : alarm < N) :
    (AlarmsGet N s alarm).2 = [TraceEvent.readTable] := by
  simp [AlarmsGet, Nat.not_le.mpr hid]

/-- Witness for C8 (amended): the trace of `AlarmsGet` on id 0 of a
1-entry table is exactly one table read. -/
theorem alarmsGet_reads_without_lock_witness :
    (AlarmsGet 1 tblAllOk 0).2 = [TraceEvent.readTable] :=
  alarmsGet_reads_without_lock 1 tblAllOk 0 (by decide)

/-- Claim C10: `hasSeverity` (and hence the three convenience queries) has
no error result — its outcome is independent of the lock-acquisition
outcome, it always returns `0` or `1`, it reads the table and never writes
it back — unlike the two setters, which return `-1` on a lock failure even
for a valid id. -/
theorem hasSeverity_ignores_lock_failure
    (N M : Nat) (lockOk : Bool) (s : SystemAlarmsData) (t : SystemAlarmsAlarmOptions) :
    hasSeverity N lockOk s t = hasSeverity N true s t ∧
    ((hasSeverity N lockOk s t).ret = 0 ∨ (hasSeverity N lockOk s t).ret = 1) ∧
    (hasSeverity N lockOk s t).alarms = s ∧
    TraceEvent.readTable ∈ (hasSeverity N lockOk s t).events ∧
    TraceEvent.writeTable ∉ (hasSeverity N lockOk s t).events ∧
    AlarmsHasWarnings N lockOk s = AlarmsHasWarnings N true s ∧
    AlarmsHasErrors N lockOk s = AlarmsHasErrors N true s ∧
    AlarmsHasCritical N lockOk s = AlarmsHasCritical N true s ∧
    (∀ alarm severity, alarm < N → (AlarmsSet N false s alarm severity).ret = -1) ∧
    (∀ alarm severity status subStatus, alarm < M →
      (ExtendedAlarmsSet M false s alarm severity status subStatus).ret = -1) := by
  refine ⟨rfl, ?_, ?_, ?_, ?_, rfl, rfl, rfl, ?_, ?_⟩
  · unfold hasSeverity; split_ifs <;> simp
  · unfold hasSeverity; split_ifs <;> rfl
  · unfold hasSeverity; split_ifs <;> simp
  · unfold hasSeverity; split_ifs <;> simp
  · intro alarm severity h
    simp [AlarmsSet, Nat.not_le.mpr h]
  · intro alarm severity status subStatus h
    simp [ExtendedAlarmsSet, Nat.not_le.mpr h]

/-- Witness for C10: with the lock unavailable, the `Warning` query on a
2-entry table gives the same result as with the lock held and leaves the
table in place, while `AlarmsSet` on the valid id 0 reports the lock
failure as `-1`. -/
theorem hasSeverity_ignores_lock_failure_witness :
    hasSeverity 2 false tblErr12 SystemAlarmsAlarmOptions.warning =
      hasSeverity 2 true tblErr12 SystemAlarmsAlarmOptions.warning ∧
    (hasSeverity 2 false tblErr12 SystemAlarmsAlarmOptions.warning).alarms = tblErr12 ∧
    (AlarmsSet 2 false tblErr12 0 SystemAlarmsAlarmOptions.warning).ret = -1 := by
  have h := hasSeverity_ignores_lock_failure 2 2 false tblErr12 SystemAlarmsAlarmOptions.warning
  exact ⟨h.1, h.2.2.1, h.2.2.2.2.2.2.2.2.1 0 SystemAlarmsAlarmOptions.warning (by decide)⟩
